import Mathlib

/-!
# Linkly — shallow embedding and verification of the claimed properties

This file embeds the click-accounting core of the Linkly URL shortener
(`app/services/link_service.py`, `app/services/redis_cache.py`, `app/crud.py`,
`app/routers/links.py`, `app/main.py`) as executable Lean definitions and
proves or refutes the stated properties of the cache/store reconciliation
layer.

Modelling conventions:
* The Persistent Store (SQLAlchemy `links` table) is a `List Link`; SQLAlchemy
  `query(...).filter_by(...).first()` becomes `List.find?` on the list.
* The Volatile Cache (Redis) is a pair of association lists: the URL entries
  (`link:` keys) and the click counters (`clicks:` keys).  TTL expiry is not a
  timed event in the embedding; it is modelled as an explicit environment step
  that removes an entry (see `Op`).
* Redis errors are not modelled (the Python wrappers catch and log them); the
  cache operations here are the success behaviours of `LinkCache`.
* `HTTPException(status_code = n)` raised before any mutation is the value
  `Except.error n`; every endpoint returns its result together with the state
  so that frame properties ("the store is unchanged") are statable.
* `created_at` and the surrogate `id` column play no role in any claim and are
  omitted from `Link`.
-/

namespace Linkly

/-- A row of the `links` table (`app/models.py`, class `Link`): unique
`short_key`, `target_url`, `owner_id` foreign key, and the authoritative
`clicks` counter (non-negative, default 0). -/
structure Link where
  short_key : String
  target_url : String
  owner_id : Nat
  clicks : Nat
deriving Repr, DecidableEq

/-- Association-list lookup: first binding for the key, mirroring a Redis GET
(or a `filter_by(...).first()` over a keyed list). -/
def lookupA {α : Type} (l : List (String × α)) (k : String) : Option α :=
  (l.find? (fun p => p.1 == k)).map (fun p => p.2)

/-- Association-list overwrite: Redis SET/SETEX semantics (the new binding
replaces any previous binding for the key). -/
def setA {α : Type} (l : List (String × α)) (k : String) (v : α) :
    List (String × α) :=
  (k, v) :: l.filter (fun p => p.1 != k)

/-- Association-list delete: Redis DEL (also used to model TTL expiry). -/
def removeA {α : Type} (l : List (String × α)) (k : String) :
    List (String × α) :=
  l.filter (fun p => p.1 != k)

/-- The Volatile Cache (`app/services/redis_cache.py`, class `LinkCache`):
`url` models the `link:{short_key}` JSON entries (only the `target_url` field
is ever stored), `cnt` models the `clicks:{short_key}` counters. -/
structure LinkCache where
  url : List (String × String)
  cnt : List (String × Nat)
deriving Repr, DecidableEq

/-- `LinkCache.get_link`: read the cached target URL, `none` on a miss. -/
def LinkCache.get_link (c : LinkCache) (k : String) : Option String :=
  lookupA c.url k

/-- `LinkCache.set_link`: cache the target URL under the key (SETEX). -/
def LinkCache.set_link (c : LinkCache) (k u : String) : LinkCache :=
  { c with url := setA c.url k u }

/-- `LinkCache.delete_link`: remove both the URL entry and the click counter
for the key (two DELs). -/
def LinkCache.delete_link (c : LinkCache) (k : String) : LinkCache :=
  { url := removeA c.url k, cnt := removeA c.cnt k }

/-- `LinkCache.increment_clicks`: Redis INCR — create the counter at 1 when
absent, otherwise add one; returns the new value and the new cache. -/
def LinkCache.increment_clicks (c : LinkCache) (k : String) :
    Nat × LinkCache :=
  let n := (lookupA c.cnt k).getD 0 + 1
  (n, { c with cnt := setA c.cnt k n })

/-- `LinkCache.get_clicks`: read the click counter, 0 when absent. -/
def LinkCache.get_clicks (c : LinkCache) (k : String) : Nat :=
  (lookupA c.cnt k).getD 0

/-- `db.query(Link).filter_by(short_key=k).first()`. -/
def findByKey (db : List Link) (k : String) : Option Link :=
  db.find? (fun l => l.short_key == k)

/-- `db.query(Link).filter_by(short_key=k, owner_id=uid).first()`. -/
def findByKeyOwner (db : List Link) (k : String) (uid : Nat) : Option Link :=
  db.find? (fun l => l.short_key == k && l.owner_id == uid)

/-- `db.query(Link).filter_by(target_url=u, owner_id=uid).first()`. -/
def findByUrlOwner (db : List Link) (u : String) (uid : Nat) : Option Link :=
  db.find? (fun l => l.target_url == u && l.owner_id == uid)

/-- `link.clicks = n; db.commit()`: update the clicks of the row with the
given short key. -/
def updateClicks (db : List Link) (k : String) (n : Nat) : List Link :=
  db.map (fun l => if l.short_key == k then { l with clicks := n } else l)

/-- `db.delete(link); db.commit()` for the row found by short key and owner. -/
def removeByKeyOwner (db : List Link) (k : String) (uid : Nat) : List Link :=
  db.filter (fun l => !(l.short_key == k && l.owner_id == uid))

/-- Combined system state: Persistent Store plus Volatile Cache. -/
structure St where
  db : List Link
  cache : LinkCache
deriving Repr, DecidableEq

/-- `LinkService.redirect_link` (`app/services/link_service.py`, lines
134-164).  Cache hit: increment the Redis counter and return the cached URL.
Cache miss: look the Link up in the store (404 when absent), cache its URL,
increment the counter, and when the new counter value is a multiple of 10
write it into the store's `clicks` (`link.clicks = redis_clicks;
db.commit()`). -/
def redirect_link (s : St) (k : String) : Except Nat String × St :=
  match s.cache.get_link k with
  | some url =>
      let r := s.cache.increment_clicks k
      (Except.ok url, { s with cache := r.2 })
  | none =>
      match findByKey s.db k with
      | none => (Except.error 404, s)
      | some link =>
          let c1 := s.cache.set_link k link.target_url
          let r := c1.increment_clicks k
          let db1 := if r.1 % 10 = 0 then updateClicks s.db k r.1 else s.db
          (Except.ok link.target_url, { db := db1, cache := r.2 })

/-- Modelled from the spec: `crud.get_link_and_increment_clicks` is called by
`app/main.py` (line 64) but its body is absent from `app/crud.py`; only its
callers and its unit tests (`tests/unit/test_crud.py`) are in the tree.  Per
the Persistent Store interface it resolves a Link by key (`getLinkByKey(key)
-> Link | None`); the repository's unit tests pin the rest of its behaviour:
on a hit the row's `clicks` is incremented by one, the increment is committed,
and the updated Link is returned; on a miss it returns `None`. -/
def get_link_and_increment_clicks (db : List Link) (k : String) :
    Option (Link × List Link) :=
  match findByKey db k with
  | none => none
  | some link =>
      let link1 := { link with clicks := link.clicks + 1 }
      some (link1, updateClicks db k link1.clicks)

/-- The seeding loop of `app/main.py` lines 74-77:
`for _ in range(db_link.clicks): link_cache.increment_clicks(short_key)`. -/
def seedLoop (c : LinkCache) (k : String) : Nat → LinkCache
  | 0 => c
  | n + 1 => ((seedLoop c k n).increment_clicks k).2

/-- `redirect_to_target_url` (`app/main.py`, lines 41-87), the wired public
redirect endpoint.  Rejects an empty or over-long key with 400 before any
store access.  Cache hit: increment the Redis counter, redirect to the cached
URL.  Cache miss: `crud.get_link_and_increment_clicks` (404 when `None`),
cache the URL, and when the Redis counter reads 0 seed it by incrementing it
`db_link.clicks` times. -/
def redirect_to_target_url (s : St) (k : String) : Except Nat String × St :=
  if k = "" ∨ 20 < k.length then (Except.error 400, s)
  else
    match s.cache.get_link k with
    | some url =>
        let r := s.cache.increment_clicks k
        (Except.ok url, { s with cache := r.2 })
    | none =>
        match get_link_and_increment_clicks s.db k with
        | none => (Except.error 404, s)
        | some (link, db1) =>
            let c1 := s.cache.set_link k link.target_url
            let c2 := if c1.get_clicks k = 0 then seedLoop c1 k link.clicks
                      else c1
            (Except.ok link.target_url, { db := db1, cache := c2 })

/-- The stats payload returned by the `/links/{short_key}/stats` endpoint
(`app/schemas.py`, `LinkStats`). -/
structure LinkStats where
  short_key : String
  clicks : Nat
deriving Repr, DecidableEq

/-- `link_stats` (`app/routers/links.py`, lines 36-51), the wired stats
endpoint: 404 when the Link is absent from the store; otherwise report the
Redis counter when it is positive and the durable `clicks` otherwise
(`total_clicks = redis_clicks if redis_clicks > 0 else link.clicks`). -/
def router_link_stats (s : St) (k : String) : Except Nat LinkStats :=
  match findByKey s.db k with
  | none => Except.error 404
  | some link =>
      let redis_clicks := s.cache.get_clicks k
      let total := if 0 < redis_clicks then redis_clicks else link.clicks
      Except.ok { short_key := link.short_key, clicks := total }

/-- `LinkService.get_link_stats` (`app/services/link_service.py`, lines
116-132): `none` when the Link is absent; otherwise report
`max(redis_clicks, link.clicks)`. -/
def get_link_stats (s : St) (k : String) : Option LinkStats :=
  match findByKey s.db k with
  | none => none
  | some link =>
      let redis_clicks := s.cache.get_clicks k
      some { short_key := link.short_key,
             clicks := max redis_clicks link.clicks }

/-- Outcomes of `crud.create_link`: the `for ... else: raise` when every
generated key collides in the pre-insert existence check, and the store's
unique-constraint violation when the chosen key already exists at commit
time. -/
inductive CreateErr
  | keyGenExhausted
  | uniqueViolation
deriving Repr, DecidableEq

/-- The key-generation loop shared by `crud.create_link` (5 attempts of
`secrets.token_urlsafe(6)`) and `LinkService.generate_short_key` (10 attempts
of `token_urlsafe(8)[:8]`): the random stream is the `keys` argument; return
the first drawn key with no existing row in the store, `none` when the stream
is exhausted. -/
def pickKey (db : List Link) : List String → Option String
  | [] => none
  | k :: ks => if (findByKey db k).isSome then pickKey db ks else some k

/-- `crud.create_link` (`app/crud.py`, lines 8-25).  `dbCheck` is the store
as seen by the pre-insert existence checks; `dbInsert` is the store at commit
time — keeping the two snapshots distinct models the concurrent insertion
that §5 of the spec discusses (a sequential call has `dbCheck = dbInsert`).
The function body has no exception handler: a unique-constraint violation at
commit time propagates to the caller. -/
def crud_create_link (dbCheck dbInsert : List Link) (keys : List String)
    (url : String) (uid : Nat) : Except CreateErr Link × List Link :=
  match pickKey dbCheck keys with
  | none => (Except.error CreateErr.keyGenExhausted, dbInsert)
  | some k =>
      if (findByKey dbInsert k).isSome then
        (Except.error CreateErr.uniqueViolation, dbInsert)
      else
        let link : Link :=
          { short_key := k, target_url := url, owner_id := uid, clicks := 0 }
        (Except.ok link, dbInsert ++ [link])

/-- `create_link` of `app/routers/links.py` (lines 13-27): calls
`crud.create_link` and converts any exception — the unique-constraint
violation included — into `HTTPException(status_code=500)`. -/
def router_create_link (dbCheck dbInsert : List Link) (keys : List String)
    (url : String) (uid : Nat) : Except Nat Link × List Link :=
  match crud_create_link dbCheck dbInsert keys url uid with
  | (Except.ok link, db1) => (Except.ok link, db1)
  | (Except.error _, db1) => (Except.error 500, db1)

/-- `LinkService.create_link` (`app/services/link_service.py`, lines 63-110),
entered after `validate_url` has accepted and normalised the URL (URL parsing
itself is outside the claims).  If the owner already has a Link to the same
validated URL that Link is returned with no insert; otherwise a fresh key is
drawn (`generate_short_key`, modelled by `pickKey`; its exhaustion is caught
by the generic handler and becomes a 500), the Link is inserted, and the URL
entry is pre-warmed in the cache. -/
def service_create_link (s : St) (validated_url : String) (uid : Nat)
    (keys : List String) : Except Nat Link × St :=
  match findByUrlOwner s.db validated_url uid with
  | some link => (Except.ok link, s)
  | none =>
      match pickKey s.db keys with
      | none => (Except.error 500, s)
      | some k =>
          let link : Link :=
            { short_key := k, target_url := validated_url, owner_id := uid,
              clicks := 0 }
          (Except.ok link,
           { db := s.db ++ [link], cache := s.cache.set_link k validated_url })

/-- `LinkService.delete_link` (`app/services/link_service.py`, lines
166-184): find the row by short key AND owner; when absent return `False`
with nothing touched; otherwise delete the cache URL entry and counter, then
the row, and return `True`. -/
def delete_link (s : St) (k : String) (uid : Nat) : Bool × St :=
  match findByKeyOwner s.db k uid with
  | none => (false, s)
  | some _ =>
      (true, { db := removeByKeyOwner s.db k uid,
               cache := s.cache.delete_link k })

/-- Environment and request events for operation sequences: a redirect served
by `LinkService.redirect_link`, and TTL expiry of a cache URL entry or of a
click counter (Redis expires the two independently: the counter's TTL is
refreshed on every INCR, the URL entry's only on SETEX). -/
inductive Op
  | redirect (k : String)
  | expireUrl (k : String)
  | expireCnt (k : String)
deriving Repr, DecidableEq

/-- One event: a redirect transforms the state through `redirect_link`; an
expiry removes the corresponding cache entry. -/
def step (s : St) : Op → St
  | Op.redirect k => (redirect_link s k).2
  | Op.expireUrl k => { s with cache := { s.cache with url := removeA s.cache.url k } }
  | Op.expireCnt k => { s with cache := { s.cache with cnt := removeA s.cache.cnt k } }

/-- Run a sequence of events from a state. -/
def run (s : St) : List Op → St
  | [] => s
  | o :: os => run (step s o) os

/-- `n` repetitions of "the URL entry expires, then a redirect arrives":
every redirect in the block takes the cache-miss path of `redirect_link`. -/
def missBlock (k : String) : Nat → List Op
  | 0 => []
  | n + 1 => missBlock k n ++ [Op.expireUrl k, Op.redirect k]

/-- The durable clicks recorded in the store for a key (for trace
statements). -/
def storeClicks (s : St) (k : String) : Option Nat :=
  (findByKey s.db k).map (fun l => l.clicks)

/-! Concrete states used by the counterexamples and witnesses. -/

/-- An empty cache. -/
def emptyCache : LinkCache := { url := [], cnt := [] }

/-- A link with no recorded clicks. -/
def linkK0 : Link :=
  { short_key := "k", target_url := "u", owner_id := 1, clicks := 0 }

/-- A link with 5 durable clicks. -/
def linkK5 : Link :=
  { short_key := "k", target_url := "u", owner_id := 1, clicks := 5 }

/-- A link of a different owner occupying the key `k`. -/
def linkOther : Link :=
  { short_key := "k", target_url := "other", owner_id := 2, clicks := 0 }

/-- Empty system state. -/
def stEmpty : St := { db := [], cache := emptyCache }

/-- Fresh link, nothing cached (start state of the reconciliation trace). -/
def stTrace : St := { db := [linkK0], cache := emptyCache }

/-- Durable clicks 5, live counter 2 (counter expired and was recreated). -/
def stC1 : St := { db := [linkK5], cache := { url := [], cnt := [("k", 2)] } }

/-- URL entry cached and live counter at 9: the next hit reaches 10. -/
def stC4 : St :=
  { db := [linkK0], cache := { url := [("k", "u")], cnt := [("k", 9)] } }

/-- Durable clicks 5 and a cold cache: the next miss should seed. -/
def stC5 : St := { db := [linkK5], cache := emptyCache }

/-- A pure cache hit: the URL entry exists, the store is empty. -/
def stHit : St := { db := [], cache := { url := [("k", "u")], cnt := [] } }

/-- A link of owner 1 with cached URL entry and live counter. -/
def stDel : St :=
  { db := [{ short_key := "k", target_url := "u", owner_id := 1, clicks := 3 }],
    cache := { url := [("k", "u")], cnt := [("k", 7)] } }

/-- Store contents after one `crud.create_link` of `u` for owner 1. -/
def dbOne : List Link := (crud_create_link [] [] ["a"] "u" 1).2

/-! Helper lemmas about the store and cache primitives. -/

theorem lookupA_setA_self {α : Type} (l : List (String × α)) (k : String)
    (v : α) : lookupA (setA l k v) k = some v := by
  unfold lookupA setA
  rw [List.find?_cons_of_pos _ (by simp)]
  rfl

theorem lookupA_removeA_self {α : Type} (l : List (String × α)) (k : String) :
    lookupA (removeA l k) k = none := by
  have h : (removeA l k).find? (fun p => p.1 == k) = none := by
    rw [List.find?_eq_none]
    intro x hx
    have hx2 := List.of_mem_filter hx
    simp only [bne_iff_ne, ne_eq] at hx2
    simp [hx2]
  unfold lookupA
  rw [h]
  rfl

theorem get_clicks_increment (c : LinkCache) (k : String) :
    ((c.increment_clicks k).2).get_clicks k = c.get_clicks k + 1 := by
  unfold LinkCache.increment_clicks LinkCache.get_clicks
  simp [lookupA_setA_self]

theorem get_clicks_set_link (c : LinkCache) (k u k2 : String) :
    (c.set_link k u).get_clicks k2 = c.get_clicks k2 := rfl

theorem seedLoop_get_clicks (c : LinkCache) (k : String) (n : Nat) :
    (seedLoop c k n).get_clicks k = c.get_clicks k + n := by
  induction n with
  | zero => rfl
  | succ m ih =>
      unfold seedLoop
      rw [get_clicks_increment, ih]
      rfl

theorem findByKey_updateClicks (db : List Link) (k : String) (n : Nat)
    (link : Link) (h : findByKey db k = some link) :
    findByKey (updateClicks db k n) k = some { link with clicks := n } := by
  induction db with
  | nil => simp [findByKey] at h
  | cons hd t ih =>
      by_cases hl : (hd.short_key == k) = true
      · unfold findByKey at h
        rw [List.find?_cons_of_pos (p := fun (l : Link) => l.short_key == k) _ hl] at h
        have hhd : hd = link := Option.some.inj h
        subst hhd
        unfold updateClicks findByKey
        simp only [List.map_cons, if_pos hl]
        rw [List.find?_cons_of_pos (p := fun (l : Link) => l.short_key == k)
              (a := { hd with clicks := n }) _ hl]
      · unfold findByKey at h
        rw [List.find?_cons_of_neg (p := fun (l : Link) => l.short_key == k) _ hl] at h
        unfold updateClicks findByKey
        simp only [List.map_cons, if_neg hl]
        rw [List.find?_cons_of_neg (p := fun (l : Link) => l.short_key == k) _ hl]
        exact ih h

theorem findByKeyOwner_removeByKeyOwner (db : List Link) (k : String)
    (uid : Nat) :
    findByKeyOwner (removeByKeyOwner db k uid) k uid = none := by
  unfold findByKeyOwner removeByKeyOwner
  rw [List.find?_eq_none]
  intro x hx
  have hx2 := List.of_mem_filter hx
  simp only [Bool.not_eq_eq_eq_not, Bool.not_true] at hx2
  simp [hx2]

/-! Claim theorems. -/

/-- C9: the public redirect endpoint rejects an empty or over-20-character
short key with the 400 "Invalid short key format" client error before
consulting the Volatile Cache or the Persistent Store, and leaves both
unchanged (the returned state is the input state). -/
theorem C9_format_check (s : St) (k : String) (h : k = "" ∨ 20 < k.length) :
    redirect_to_target_url s k = (Except.error 400, s) := by
  unfold redirect_to_target_url
  rw [if_pos h]

theorem C9_witness :
    (("aaaaaaaaaaaaaaaaaaaaa" : String) = "" ∨
      20 < ("aaaaaaaaaaaaaaaaaaaaa" : String).length) ∧
    redirect_to_target_url stEmpty "aaaaaaaaaaaaaaaaaaaaa" =
      (Except.error 400, stEmpty) :=
  ⟨by decide, C9_format_check stEmpty "aaaaaaaaaaaaaaaaaaaaa" (by decide)⟩

/-- C2: for every format-valid short key (non-empty, at most 20 characters —
empty or over-long keys are rejected by the 400 format check treated in C9)
that is absent from both the Volatile Cache and the Persistent Store, both
the wired redirect endpoint and `LinkService.redirect_link` fail with 404
(`LinkNotFound`) and change nothing. -/
theorem C2_not_found (s : St) (k : String) (hk1 : k ≠ "")
    (hk2 : k.length ≤ 20) (hc : s.cache.get_link k = none)
    (hdb : findByKey s.db k = none) :
    redirect_to_target_url s k = (Except.error 404, s) ∧
    redirect_link s k = (Except.error 404, s) := by
  have hcond : ¬ (k = "" ∨ 20 < k.length) := by
    rintro (h | h)
    · exact hk1 h
    · omega
  constructor
  · simp [redirect_to_target_url, if_neg hcond, hc,
          get_link_and_increment_clicks, hdb]
  · simp [redirect_link, hc, hdb]

theorem C2_witness :
    ("doesnotexist" : String) ≠ "" ∧
    ("doesnotexist" : String).length ≤ 20 ∧
    stEmpty.cache.get_link "doesnotexist" = none ∧
    findByKey stEmpty.db "doesnotexist" = none ∧
    (redirect_to_target_url stEmpty "doesnotexist" =
        (Except.error 404, stEmpty) ∧
      redirect_link stEmpty "doesnotexist" = (Except.error 404, stEmpty)) :=
  ⟨by decide, by decide, rfl, rfl,
   C2_not_found stEmpty "doesnotexist" (by decide) (by decide) rfl rfl⟩

/-- C7: on a cache hit (the key has a URL entry in the Volatile Cache; the
key is format-valid so the endpoint's 400 guard does not fire), both
`LinkService.redirect_link` and the wired endpoint return the cached URL and
only increment the cache click counter: the Persistent Store list is the one
of the input state, the cache URL entries are untouched, and the counter
grows by exactly one. -/
theorem C7_cache_hit_frame (s : St) (k url : String) (hk1 : k ≠ "")
    (hk2 : k.length ≤ 20) (hc : s.cache.get_link k = some url) :
    redirect_link s k =
      (Except.ok url, { s with cache := (s.cache.increment_clicks k).2 }) ∧
    redirect_to_target_url s k =
      (Except.ok url, { s with cache := (s.cache.increment_clicks k).2 }) ∧
    ((s.cache.increment_clicks k).2).url = s.cache.url ∧
    ((s.cache.increment_clicks k).2).get_clicks k =
      s.cache.get_clicks k + 1 := by
  have hcond : ¬ (k = "" ∨ 20 < k.length) := by
    rintro (h | h)
    · exact hk1 h
    · omega
  refine ⟨?_, ?_, rfl, get_clicks_increment s.cache k⟩
  · simp [redirect_link, hc]
  · simp [redirect_to_target_url, if_neg hcond, hc]

theorem C7_witness :
    ("k" : String) ≠ "" ∧ ("k" : String).length ≤ 20 ∧
    stHit.cache.get_link "k" = some "u" ∧
    (redirect_link stHit "k" =
        (Except.ok "u",
         { stHit with cache := (stHit.cache.increment_clicks "k").2 }) ∧
      redirect_to_target_url stHit "k" =
        (Except.ok "u",
         { stHit with cache := (stHit.cache.increment_clicks "k").2 }) ∧
      ((stHit.cache.increment_clicks "k").2).url = stHit.cache.url ∧
      ((stHit.cache.increment_clicks "k").2).get_clicks "k" =
        stHit.cache.get_clicks "k" + 1) :=
  ⟨by decide, by decide, rfl,
   C7_cache_hit_frame stHit "k" "u" (by decide) (by decide) rfl⟩

/-- C10: `LinkService.delete_link` deletes the Link together with its cache
URL entry and click counter exactly when a Link with that short key and that
owner exists; when no such Link exists (absent key or a different owner) it
returns `false` and leaves the Persistent Store and the Volatile Cache
exactly as they were. -/
theorem C10_delete_link (s : St) (k : String) (uid : Nat) :
    (findByKeyOwner s.db k uid = none → delete_link s k uid = (false, s)) ∧
    (∀ link, findByKeyOwner s.db k uid = some link →
      delete_link s k uid =
        (true, { db := removeByKeyOwner s.db k uid,
                 cache := s.cache.delete_link k }) ∧
      ((delete_link s k uid).2).cache.get_link k = none ∧
      ((delete_link s k uid).2).cache.get_clicks k = 0 ∧
      findByKeyOwner ((delete_link s k uid).2).db k uid = none) := by
  constructor
  · intro h
    simp [delete_link, h]
  · intro link h
    have heq : delete_link s k uid =
        (true, { db := removeByKeyOwner s.db k uid,
                 cache := s.cache.delete_link k }) := by
      simp [delete_link, h]
    refine ⟨heq, ?_, ?_, ?_⟩
    · rw [heq]
      exact lookupA_removeA_self s.cache.url k
    · rw [heq]
      show (lookupA (removeA s.cache.cnt k) k).getD 0 = 0
      rw [lookupA_removeA_self]
      rfl
    · rw [heq]
      exact findByKeyOwner_removeByKeyOwner s.db k uid

theorem C10_witness :
    findByKeyOwner stDel.db "k" 2 = none ∧
    delete_link stDel "k" 2 = (false, stDel) ∧
    findByKeyOwner stDel.db "k" 1 =
      some { short_key := "k", target_url := "u", owner_id := 1,
             clicks := 3 } ∧
    (delete_link stDel "k" 1 =
        (true, { db := removeByKeyOwner stDel.db "k" 1,
                 cache := stDel.cache.delete_link "k" }) ∧
      ((delete_link stDel "k" 1).2).cache.get_link "k" = none ∧
      ((delete_link stDel "k" 1).2).cache.get_clicks "k" = 0 ∧
      findByKeyOwner ((delete_link stDel "k" 1).2).db "k" 1 = none) :=
  ⟨rfl, (C10_delete_link stDel "k" 2).1 rfl, rfl,
   (C10_delete_link stDel "k" 1).2
     { short_key := "k", target_url := "u", owner_id := 1, clicks := 3 } rfl⟩

/-- C1: counterexample to the claim as stated.  In `stC1` the Link exists
with durable clicks 5 while the live counter reads 2 (a counter that expired
after a checkpoint and was recreated); the wired stats endpoint
(`routers/links.py`) reports 2 — the live counter because it is positive —
and not the maximum 5. -/
theorem C1_counterexample :
    findByKey stC1.db "k" = some linkK5 ∧ linkK5.clicks = 5 ∧
    stC1.cache.get_clicks "k" = 2 ∧
    router_link_stats stC1 "k" =
      Except.ok { short_key := "k", clicks := 2 } ∧
    (2 : Nat) ≠ max 2 5 :=
  ⟨rfl, rfl, rfl, rfl, by decide⟩

/-- C1 (amended): for every short key whose Link exists, the service-layer
`LinkService.get_link_stats` reports `max(live counter, durable clicks)` as
the claim states; the wired stats endpoint (`routers/links.py`,
`link_stats`) instead reports the live counter when it is positive and the
durable count otherwise, which agrees with the maximum exactly when the live
counter is 0 or at least the durable count. -/
theorem C1_amended (s : St) (k : String) (link : Link)
    (h : findByKey s.db k = some link) :
    get_link_stats s k =
      some { short_key := link.short_key,
             clicks := max (s.cache.get_clicks k) link.clicks } ∧
    (router_link_stats s k =
        Except.ok { short_key := link.short_key,
                    clicks := max (s.cache.get_clicks k) link.clicks } ↔
      (s.cache.get_clicks k = 0 ∨
        link.clicks ≤ s.cache.get_clicks k)) := by
  constructor
  · simp [get_link_stats, h]
  · simp only [router_link_stats, h]
    by_cases hm : 0 < s.cache.get_clicks k
    · rw [if_pos hm]
      simp only [Except.ok.injEq, LinkStats.mk.injEq, true_and]
      rw [eq_comm, max_eq_left_iff]
      constructor
      · exact fun hcm => Or.inr hcm
      · rintro (h0 | hcm)
        · omega
        · exact hcm
    · have hm0 : s.cache.get_clicks k = 0 := by omega
      rw [if_neg hm]
      simp [hm0]

theorem C1_witness :
    findByKey stC1.db "k" = some linkK5 ∧
    (get_link_stats stC1 "k" =
        some { short_key := linkK5.short_key,
               clicks := max (stC1.cache.get_clicks "k") linkK5.clicks } ∧
      (router_link_stats stC1 "k" =
          Except.ok { short_key := linkK5.short_key,
                      clicks := max (stC1.cache.get_clicks "k")
                                  linkK5.clicks } ↔
        (stC1.cache.get_clicks "k" = 0 ∨
          linkK5.clicks ≤ stC1.cache.get_clicks "k"))) :=
  ⟨rfl, C1_amended stC1 "k" linkK5 rfl⟩

/-- C4: counterexample to the claim as stated.  In `stC4` the URL entry is
cached and the live counter stands at 9: the cache-hit path of
`LinkService.redirect_link` increments the counter to 10 — a multiple of the
flush interval — yet the Persistent Store's clicks stay 0: no write-back
happens on the hit path. -/
theorem C4_counterexample :
    stC4.cache.get_clicks "k" = 9 ∧
    ((redirect_link stC4 "k").2).cache.get_clicks "k" = 10 ∧
    (10 : Nat) % 10 = 0 ∧
    storeClicks ((redirect_link stC4 "k").2) "k" = some 0 ∧
    (0 : Nat) ≠ 10 :=
  ⟨rfl, rfl, rfl, rfl, by decide⟩

/-- C4 (amended): the modulus-10 write-back runs only on the cache-miss path
of `LinkService.redirect_link`: on a cache hit the Persistent Store is never
touched regardless of the counter value, while on a cache miss with an
existing Link the store's clicks end up at the incremented counter value when
that value is a multiple of 10 and remain the durable value otherwise.  (The
`app/main.py` endpoint performs no modulus flush at all; its store increment
is covered with C5.) -/
theorem C4_amended (s : St) (k : String) :
    (∀ url, s.cache.get_link k = some url →
      ((redirect_link s k).2).db = s.db) ∧
    (∀ link, s.cache.get_link k = none → findByKey s.db k = some link →
      storeClicks ((redirect_link s k).2) k =
        some (if (s.cache.get_clicks k + 1) % 10 = 0
              then s.cache.get_clicks k + 1 else link.clicks)) := by
  constructor
  · intro url hc
    simp [redirect_link, hc]
  · intro link hc hdb
    have hr : (redirect_link s k).2 =
        { db := if (s.cache.get_clicks k + 1) % 10 = 0
                then updateClicks s.db k (s.cache.get_clicks k + 1)
                else s.db,
          cache :=
            ((s.cache.set_link k link.target_url).increment_clicks k).2 } := by
      simp only [redirect_link, hc, hdb]
      rfl
    rw [hr]
    by_cases hmod : (s.cache.get_clicks k + 1) % 10 = 0
    · simp only [if_pos hmod]
      unfold storeClicks
      rw [findByKey_updateClicks s.db k _ link hdb]
      rfl
    · simp only [if_neg hmod]
      unfold storeClicks
      rw [hdb]
      rfl

theorem C4_witness :
    stHit.cache.get_link "k" = some "u" ∧
    ((redirect_link stHit "k").2).db = stHit.db ∧
    stC5.cache.get_link "k" = none ∧
    findByKey stC5.db "k" = some linkK5 ∧
    storeClicks ((redirect_link stC5 "k").2) "k" =
      some (if (stC5.cache.get_clicks "k" + 1) % 10 = 0
            then stC5.cache.get_clicks "k" + 1 else linkK5.clicks) :=
  ⟨rfl, (C4_amended stHit "k").1 "u" rfl, rfl, rfl,
   (C4_amended stC5 "k").2 linkK5 rfl rfl⟩

/-- C5: counterexample to the claim as stated.  In `stC5` the Link has 5
durable clicks, the cache is cold (no URL entry, no live counter), so
`LinkService.redirect_link` takes the cache-miss path for an existing Link
with no live counter; per the claim the counter should be seeded to 5 and the
subsequent increment should leave 6, but the service never seeds: the counter
ends at 1. -/
theorem C5_counterexample :
    stC5.cache.get_link "k" = none ∧
    stC5.cache.get_clicks "k" = 0 ∧
    findByKey stC5.db "k" = some linkK5 ∧ linkK5.clicks = 5 ∧
    ((redirect_link stC5 "k").2).cache.get_clicks "k" = 1 ∧
    (1 : Nat) ≠ linkK5.clicks + 1 :=
  ⟨rfl, rfl, rfl, rfl, rfl, by decide⟩

/-- C5 (amended): `LinkService.redirect_link` performs no seeding — on a
cache miss for an existing Link it just increments the counter from its
current value (so an absent counter restarts at 1 regardless of the durable
count).  The `app/main.py` endpoint seeds exactly when the live counter reads
0, never overwrites a live counter (a miss with a live counter leaves the
counter unchanged), and because it first increments the durable count through
`crud.get_link_and_increment_clicks` the seeded counter ends at durable
clicks + 1 — extensionally the claim's seed-then-increment value. -/
theorem C5_amended (s : St) (k : String) (link : Link) (hk1 : k ≠ "")
    (hk2 : k.length ≤ 20) (hc : s.cache.get_link k = none)
    (hdb : findByKey s.db k = some link) :
    (redirect_to_target_url s k).1 = Except.ok link.target_url ∧
    ((redirect_to_target_url s k).2).cache.get_clicks k =
      (if s.cache.get_clicks k = 0 then link.clicks + 1
       else s.cache.get_clicks k) ∧
    ((redirect_link s k).2).cache.get_clicks k =
      s.cache.get_clicks k + 1 := by
  have hcond : ¬ (k = "" ∨ 20 < k.length) := by
    rintro (h | h)
    · exact hk1 h
    · omega
  refine ⟨?_, ?_, ?_⟩
  · simp [redirect_to_target_url, if_neg hcond, hc,
          get_link_and_increment_clicks, hdb]
  · simp only [redirect_to_target_url, if_neg hcond, hc,
               get_link_and_increment_clicks, hdb]
    by_cases h0 : s.cache.get_clicks k = 0
    · rw [if_pos h0]
      rw [if_pos
            (show (s.cache.set_link k link.target_url).get_clicks k = 0
              from h0)]
      rw [seedLoop_get_clicks]
      rw [show (s.cache.set_link k link.target_url).get_clicks k
            = s.cache.get_clicks k from rfl, h0]
      omega
    · rw [if_neg h0]
      rw [if_neg
            (show ¬ (s.cache.set_link k link.target_url).get_clicks k = 0
              from h0)]
      rfl
  · simp only [redirect_link, hc, hdb]
    rw [get_clicks_increment, get_clicks_set_link]

theorem C5_witness :
    ("k" : String) ≠ "" ∧ ("k" : String).length ≤ 20 ∧
    stC5.cache.get_link "k" = none ∧ findByKey stC5.db "k" = some linkK5 ∧
    ((redirect_to_target_url stC5 "k").1 = Except.ok linkK5.target_url ∧
      ((redirect_to_target_url stC5 "k").2).cache.get_clicks "k" =
        (if stC5.cache.get_clicks "k" = 0 then linkK5.clicks + 1
         else stC5.cache.get_clicks "k") ∧
      ((redirect_link stC5 "k").2).cache.get_clicks "k" =
        stC5.cache.get_clicks "k" + 1) :=
  ⟨by decide, by decide, rfl, rfl,
   C5_amended stC5 "k" linkK5 (by decide) (by decide) rfl rfl⟩

/-- C3: evaluation of the code at a failing operation sequence.  Starting
from a fresh Link with 0 durable clicks, twenty redirects each taken on the
cache-miss path of `LinkService.redirect_link` drive the live counter to 20
and checkpoint the durable clicks at 20 (flushes at 10 and 20).  The click
counter then expires (`Op.expireCnt`); ten further miss-path redirects
recreate the counter at 1 and drive it to 10, and the modulus-10 checkpoint
writes 10 into the store — strictly below the previously committed 20.  The
durable `click_count` is therefore not monotonically non-decreasing under
`redirect_link`; an operation writes a value smaller than the current one. -/
theorem C3_code_evaluation :
    storeClicks (run stTrace (missBlock "k" 20)) "k" = some 20 ∧
    storeClicks (run stTrace (missBlock "k" 20 ++
        (Op.expireCnt "k" :: missBlock "k" 10))) "k" = some 10 ∧
    (10 : Nat) < 20 :=
  ⟨rfl, rfl, by decide⟩

/-- C6: counterexample to the claim as stated.  The pre-insert existence
check ran against a store without the key, then (modelling the §5 race) a
concurrent request inserted `linkOther` under the same key before commit:
`crud.create_link` returns the unique-constraint violation instead of
retrying with the still-available fresh key `"j"`, and the links router
surfaces it to the caller as a 500. -/
theorem C6_counterexample :
    findByKey [linkOther] "j" = none ∧
    crud_create_link [] [linkOther] ["k", "j"] "u" 1 =
      (Except.error CreateErr.uniqueViolation, [linkOther]) ∧
    router_create_link [] [linkOther] ["k", "j"] "u" 1 =
      (Except.error 500, [linkOther]) :=
  ⟨rfl, rfl, rfl⟩

/-- C6 (amended): collisions are avoided only by the pre-insert existence
checks inside key generation; an insert-time unique-constraint violation is
not caught and not retried — whenever the key chosen by the generation loop
exists in the store at commit time, `crud.create_link` propagates the
violation and the links router surfaces it to the caller as a 500 server
error, leaving the store unchanged. -/
theorem C6_amended (dbCheck dbInsert : List Link) (keys : List String)
    (url : String) (uid : Nat) (k : String)
    (hpick : pickKey dbCheck keys = some k)
    (hdup : (findByKey dbInsert k).isSome = true) :
    crud_create_link dbCheck dbInsert keys url uid =
      (Except.error CreateErr.uniqueViolation, dbInsert) ∧
    router_create_link dbCheck dbInsert keys url uid =
      (Except.error 500, dbInsert) := by
  have h1 : crud_create_link dbCheck dbInsert keys url uid =
      (Except.error CreateErr.uniqueViolation, dbInsert) := by
    simp [crud_create_link, hpick, hdup]
  exact ⟨h1, by simp [router_create_link, h1]⟩

theorem C6_witness :
    pickKey ([] : List Link) ["k", "j"] = some "k" ∧
    (findByKey [linkOther] "k").isSome = true ∧
    (crud_create_link [] [linkOther] ["k", "j"] "u" 1 =
        (Except.error CreateErr.uniqueViolation, [linkOther]) ∧
      router_create_link [] [linkOther] ["k", "j"] "u" 1 =
        (Except.error 500, [linkOther])) :=
  ⟨rfl, rfl, C6_amended [] [linkOther] ["k", "j"] "u" 1 "k" rfl rfl⟩

/-- C8: counterexample to the claim as stated.  `crud.create_link` — the
variant the links router actually calls — has no owner/URL deduplication:
creating the same URL twice for owner 1 (first key draw `"a"`, second `"b"`)
leaves two Links with that owner and target URL, not one. -/
theorem C8_counterexample :
    dbOne = [{ short_key := "a", target_url := "u", owner_id := 1,
               clicks := 0 }] ∧
    ((crud_create_link dbOne dbOne ["b"] "u" 1).2).countP
        (fun l => l.owner_id == 1 && l.target_url == "u") = 2 :=
  ⟨rfl, rfl⟩

/-- C8 (amended): only the `LinkService.create_link` variant deduplicates by
owner and validated URL: when the owner already has a Link with that URL it
is returned and the state is untouched, and a successful create followed by a
second create with the same owner and URL returns the Link of the first call
and leaves the state of the first call unchanged.  (`crud.create_link`, the
variant wired to the links router, always inserts — see the
counterexample.) -/
theorem C8_amended (s : St) (validated_url : String) (uid : Nat)
    (keys keys2 : List String) :
    (∀ link, findByUrlOwner s.db validated_url uid = some link →
      service_create_link s validated_url uid keys = (Except.ok link, s)) ∧
    (∀ k, findByUrlOwner s.db validated_url uid = none →
      pickKey s.db keys = some k →
      service_create_link ((service_create_link s validated_url uid keys).2)
          validated_url uid keys2 =
        ((service_create_link s validated_url uid keys).1,
         (service_create_link s validated_url uid keys).2)) := by
  constructor
  · intro link h
    simp [service_create_link, h]
  · intro k h hp
    have h1 : service_create_link s validated_url uid keys =
        (Except.ok { short_key := k, target_url := validated_url,
                     owner_id := uid, clicks := 0 },
         { db := s.db ++ [{ short_key := k, target_url := validated_url,
                            owner_id := uid, clicks := 0 }],
           cache := s.cache.set_link k validated_url }) := by
      simp [service_create_link, h, hp]
    rw [h1]
    have hfind : findByUrlOwner
        (s.db ++ [{ short_key := k, target_url := validated_url,
                    owner_id := uid, clicks := 0 }]) validated_url uid =
        some { short_key := k, target_url := validated_url, owner_id := uid,
               clicks := 0 } := by
      unfold findByUrlOwner at h ⊢
      rw [List.find?_append, h]
      simp
    simp [service_create_link, hfind]

theorem C8_witness :
    findByUrlOwner stC5.db "u" 1 = some linkK5 ∧
    service_create_link stC5 "u" 1 ["a"] = (Except.ok linkK5, stC5) ∧
    findByUrlOwner stEmpty.db "u" 1 = none ∧
    pickKey stEmpty.db ["a"] = some "a" ∧
    service_create_link ((service_create_link stEmpty "u" 1 ["a"]).2)
        "u" 1 ["b"] =
      ((service_create_link stEmpty "u" 1 ["a"]).1,
       (service_create_link stEmpty "u" 1 ["a"]).2) :=
  ⟨rfl, (C8_amended stC5 "u" 1 ["a"] ["b"]).1 linkK5 rfl, rfl, rfl,
   (C8_amended stEmpty "u" 1 ["a"] ["b"]).2 "a" rfl rfl⟩

end Linkly
